import Mathlib

/-!
Verification of the record-storage core and preprocessor plugins of the
plaso repository against its natural-language specification.

The attribute-container store (the fake storage writer) is exercised by
tests/storage/fake/writer.py; its implementation module
plaso/storage/fake/writer.py is not part of the provided sources, so the
store is modelled from the specification (sections 3, 4.2, 4.3 and 4.4).
The preprocessor plugin functions are embedded directly from
plaso/preprocessors/windows.py.
-/

namespace Plaso

/-- Lifecycle states of a store: UNOPENED, OPEN and CLOSED (spec section 4.2). -/
inductive StorageState where
  | unopened
  | opened
  | closed
deriving DecidableEq, Repr

/-- Storage type of a store instance, fixed at creation (spec section 3). -/
inductive StorageType where
  | session
  | task
deriving DecidableEq, Repr

/-- Error taxonomy of the store layer (spec section 7): state errors for
lifecycle and storage-type violations, usage errors for lookups against a
container type unknown to the schema. -/
inductive StoreError where
  | stateError
  | usageError
deriving DecidableEq, Repr

/-- Modelled from the spec: an attribute container identifier is the pair
(container_type, sequence_number) (spec section 3). -/
structure AttributeContainerIdentifier where
  container_type : String
  sequence_number : Nat
deriving DecidableEq, Repr

/-- Modelled from the spec: an attribute container is a typed record; the
timestamp field is the one consulted by the event sorter, the data field
stands for the remaining payload (spec sections 3 and 4.1). -/
structure AttributeContainer where
  container_type : String
  timestamp : Int
  data : Nat
deriving DecidableEq, Repr

/-- Container together with the identifier the store assigned to it when it
was added. -/
structure StoredContainer where
  identifier : AttributeContainerIdentifier
  container : AttributeContainer
deriving DecidableEq, Repr

/-- Container types known to the schema (spec section 3). -/
def schemaContainerTypes : List String :=
  ["event", "event_data", "event_data_stream", "session", "task", "warning"]

/-- Modelled from the spec: the fake storage writer, missing from the
provided sources (only tests/storage/fake/writer.py is present).  It holds,
per container type, the ordered sequence of containers added so far, gated
by the lifecycle state (spec section 4.2). -/
structure FakeStorageWriter where
  storage_type : StorageType
  state : StorageState
  containers : String → List StoredContainer

namespace FakeStorageWriter

/-- Freshly constructed store: state UNOPENED, no containers. -/
def new (t : StorageType) : FakeStorageWriter :=
  ⟨t, .unopened, fun _ => []⟩

/-- Number of containers stored under a type (spec section 4.2, Count). -/
def count (s : FakeStorageWriter) (t : String) : Nat :=
  (s.containers t).length

/-- Modelled from the spec: Open is legal only from UNOPENED or CLOSED and
transitions to OPEN; it fails with a state error if already OPEN. -/
def Open (s : FakeStorageWriter) : Except StoreError FakeStorageWriter :=
  match s.state with
  | .opened => .error .stateError
  | _ => .ok { s with state := .opened }

/-- Modelled from the spec: Close is legal only from OPEN and transitions to
CLOSED; it fails with a state error from UNOPENED or CLOSED. -/
def Close (s : FakeStorageWriter) : Except StoreError FakeStorageWriter :=
  match s.state with
  | .opened => .ok { s with state := .closed }
  | _ => .error .stateError

/-- Unguarded append used by the add operations: assigns the next sequence
number for the container's type (count of that type plus one) and stores the
container at the end of the type's sequence. -/
def rawAdd (s : FakeStorageWriter) (c : AttributeContainer) :
    AttributeContainerIdentifier × FakeStorageWriter :=
  let n : Nat := (s.containers c.container_type).length + 1
  let ident : AttributeContainerIdentifier := ⟨c.container_type, n⟩
  (ident,
    { s with containers := fun t =>
        if t = c.container_type then s.containers t ++ [⟨ident, c⟩]
        else s.containers t })

/-- Modelled from the spec: AddAttributeContainer is legal only while OPEN;
it assigns the next sequence number for the container's type, stores the
container in insertion order and returns the new identifier; it fails with a
state error, leaving the store unchanged, when the store is not OPEN
(spec section 4.2).  The store object is threaded through so that the
failure case can be observed to leave the contents intact. -/
def AddAttributeContainer (s : FakeStorageWriter) (c : AttributeContainer) :
    Except StoreError AttributeContainerIdentifier × FakeStorageWriter :=
  match s.state with
  | .opened =>
      let r := s.rawAdd c
      (.ok r.1, r.2)
  | _ => (.error .stateError, s)

/-- Modelled from the spec: GetAttributeContainerByIdentifier returns the
container whose (type, sequence_number) matches, or an explicit not-found
result when no match exists; it is legal regardless of open or closed state
(spec section 4.2). -/
def GetAttributeContainerByIdentifier (s : FakeStorageWriter) (t : String)
    (ident : AttributeContainerIdentifier) : Option StoredContainer :=
  (s.containers t).find?
    (fun e => e.identifier.sequence_number == ident.sequence_number)

/-- Modelled from the spec: GetAttributeContainerByIndex returns the
container at the given zero-based position within the type's sequence, a
not-found result when the index is out of range, and fails with a usage
error when the container type is unknown to the schema (spec section 4.2). -/
def GetAttributeContainerByIndex (s : FakeStorageWriter) (t : String)
    (index : Nat) : Except StoreError (Option StoredContainer) :=
  if t ∈ schemaContainerTypes then .ok ((s.containers t).get? index)
  else .error .usageError

/-- Modelled from the spec: WriteSessionStart is legal only when the storage
type is SESSION and the store is OPEN; the storage-type check takes
precedence over the open and closed check (spec section 4.3). -/
def WriteSessionStart (s : FakeStorageWriter) (c : AttributeContainer) :
    Except StoreError FakeStorageWriter :=
  if s.storage_type ≠ StorageType.session then .error .stateError
  else
    match s.state with
    | .opened => .ok (s.rawAdd c).2
    | _ => .error .stateError

/-- Modelled from the spec: WriteSessionCompletion mirrors WriteSessionStart
(spec section 4.3). -/
def WriteSessionCompletion (s : FakeStorageWriter) (c : AttributeContainer) :
    Except StoreError FakeStorageWriter :=
  if s.storage_type ≠ StorageType.session then .error .stateError
  else
    match s.state with
    | .opened => .ok (s.rawAdd c).2
    | _ => .error .stateError

/-- Modelled from the spec: WriteTaskStart is legal only when the storage
type is TASK and the store is OPEN (spec section 4.3). -/
def WriteTaskStart (s : FakeStorageWriter) (c : AttributeContainer) :
    Except StoreError FakeStorageWriter :=
  if s.storage_type ≠ StorageType.task then .error .stateError
  else
    match s.state with
    | .opened => .ok (s.rawAdd c).2
    | _ => .error .stateError

/-- Modelled from the spec: WriteTaskCompletion mirrors WriteTaskStart
(spec section 4.3). -/
def WriteTaskCompletion (s : FakeStorageWriter) (c : AttributeContainer) :
    Except StoreError FakeStorageWriter :=
  if s.storage_type ≠ StorageType.task then .error .stateError
  else
    match s.state with
    | .opened => .ok (s.rawAdd c).2
    | _ => .error .stateError

end FakeStorageWriter

/-- Event ordering used by the sorter: ascending timestamp as primary key,
with ties broken by ascending insertion sequence number (spec section 4.4). -/
def eventLE (a b : StoredContainer) : Prop :=
  a.container.timestamp < b.container.timestamp ∨
    (a.container.timestamp = b.container.timestamp ∧
      a.identifier.sequence_number ≤ b.identifier.sequence_number)

instance : DecidableRel eventLE := fun a b => by
  unfold eventLE; infer_instance

instance : IsTotal StoredContainer eventLE := by
  constructor
  intro a b
  unfold eventLE
  rcases lt_trichotomy a.container.timestamp b.container.timestamp with h | h | h
  · exact Or.inl (Or.inl h)
  · rcases Nat.le_total a.identifier.sequence_number b.identifier.sequence_number
      with h2 | h2
    · exact Or.inl (Or.inr ⟨h, h2⟩)
    · exact Or.inr (Or.inr ⟨h.symm, h2⟩)
  · exact Or.inr (Or.inl h)

instance : IsTrans StoredContainer eventLE := by
  constructor
  intro a b c hab hbc
  unfold eventLE at *
  rcases hab with h1 | ⟨h1, h1'⟩ <;> rcases hbc with h2 | ⟨h2, h2'⟩
  · exact Or.inl (h1.trans h2)
  · exact Or.inl (h2 ▸ h1)
  · exact Or.inl (h1 ▸ h2)
  · exact Or.inr ⟨h1.trans h2, h1'.trans h2'⟩

/-- Modelled from the spec: GetSortedEvents produces the stored event
containers ordered by ascending timestamp with insertion sequence number as
the stable tie-break (spec section 4.4, no time range supplied). -/
def FakeStorageWriter.GetSortedEvents (s : FakeStorageWriter) :
    List StoredContainer :=
  (s.containers "event").insertionSort eventLE

/-- Store opened directly after construction. -/
def freshOpened (t : StorageType) : FakeStorageWriter :=
  ⟨t, .opened, fun _ => []⟩

/-- Folds a sequence of AddAttributeContainer calls over a store, keeping the
threaded store of each call. -/
def addAll (s : FakeStorageWriter) (cs : List AttributeContainer) :
    FakeStorageWriter :=
  cs.foldl (fun st c => (st.AddAttributeContainer c).2) s

/-- Well-formedness of a store: the container at position i of a type's
sequence carries the identifier (type, i + 1), reflecting that sequence
numbers start at 1 and increase by 1 per type (spec section 3). -/
def WellFormed (s : FakeStorageWriter) : Prop :=
  ∀ t : String, ∀ i : Nat, ∀ e : StoredContainer,
    (s.containers t).get? i = some e → e.identifier = ⟨t, i + 1⟩

/-! Preprocessor plugins, embedded from plaso/preprocessors/windows.py.
The knowledge base and the preprocess mediator are external collaborators
whose code is not among the provided sources; they are modelled from spec
section 6. -/

/-- Python KeyError raised by the knowledge base add operations. -/
inductive KeyErr where
  | keyError
deriving DecidableEq, Repr

/-- Python ValueError raised by SetTimeZone for an unmappable value. -/
inductive ValueErr where
  | valueError
deriving DecidableEq, Repr

/-- Environment variable artifact: name and value (case_sensitive is always
False in the embedded plugins). -/
structure EnvironmentVariableArtifact where
  case_sensitive : Bool
  name : String
  value : String
deriving DecidableEq, Repr

/-- User account artifact as built by the Windows user accounts plugin. -/
structure UserAccountArtifact where
  identifier : String
  username : Option String
  user_directory : Option String
  path_separator : String
deriving DecidableEq, Repr

/-- Modelled from the spec: the knowledge base, an external fact table keyed
by string names whose getters return an explicit absent result for a missing
value (spec section 6).  The add operations reject a write with a KeyError
when the key already exists, which is the rejection the plugins in
plaso/preprocessors/windows.py catch. -/
structure KnowledgeBase where
  environment_variables : List (String × String)
  known_time_zones : List String
  time_zone : String
  user_accounts : List String
deriving DecidableEq, Repr

namespace KnowledgeBase

/-- Modelled from the spec: getting a missing environment variable returns
an explicit absent result, never an error (spec section 6). -/
def GetEnvironmentVariable (kb : KnowledgeBase) (name : String) :
    Option EnvironmentVariableArtifact :=
  match kb.environment_variables.find? (fun p => p.1 == name) with
  | some p => some ⟨false, p.1, p.2⟩
  | none => none

/-- Modelled from the spec: adding an environment variable rejects the write
with a KeyError when the variable already exists. -/
def AddEnvironmentVariable (kb : KnowledgeBase)
    (ev : EnvironmentVariableArtifact) : Except KeyErr KnowledgeBase :=
  if (kb.environment_variables.find? (fun p => p.1 == ev.name)).isSome then
    .error .keyError
  else
    .ok { kb with environment_variables :=
        kb.environment_variables ++ [(ev.name, ev.value)] }

/-- Modelled from the spec: setting the time zone rejects an unmappable
value with a ValueError. -/
def SetTimeZone (kb : KnowledgeBase) (z : String) :
    Except ValueErr KnowledgeBase :=
  if z ∈ kb.known_time_zones then .ok { kb with time_zone := z }
  else .error .valueError

/-- Modelled from the spec: adding a user account rejects the write with a
KeyError when an account with the same identifier already exists. -/
def AddUserAccount (kb : KnowledgeBase) (ua : UserAccountArtifact) :
    Except KeyErr KnowledgeBase :=
  if ua.identifier ∈ kb.user_accounts then .error .keyError
  else .ok { kb with user_accounts := kb.user_accounts ++ [ua.identifier] }

end KnowledgeBase

/-- Preprocessing warning record: source identifier plus human-readable
message (spec section 6). -/
structure PreprocessWarning where
  source : String
  message : String
deriving DecidableEq, Repr

/-- Modelled from the spec: the preprocess mediator carries the knowledge
base and the sequence of preprocessing warnings appended so far. -/
structure PreprocessMediator where
  knowledge_base : KnowledgeBase
  warnings : List PreprocessWarning
deriving DecidableEq, Repr

/-- Modelled from the spec: producing a preprocessing warning appends one
warning record and never itself raises (spec section 6). -/
def PreprocessMediator.ProducePreprocessingWarning (m : PreprocessMediator)
    (src msg : String) : PreprocessMediator :=
  { m with warnings := m.warnings ++ [⟨src, msg⟩] }

/-- Python PreProcessFail exception. -/
structure PreProcessFail where
  message : String
deriving DecidableEq, Repr

/-- Windows Registry value data handed to a value plugin: either a string or
some non-string value. -/
inductive RegistryValueData where
  | str (s : String)
  | nonString
deriving DecidableEq, Repr

/-- Embeds WindowsEnvironmentVariableArtifactPreprocessorPlugin
_ParseValueData (plaso/preprocessors/windows.py lines 20 to 48): a
non-string value raises PreProcessFail; otherwise the plugin tries to add
the environment variable named by its _NAME attribute, and a KeyError from
the knowledge base is converted into exactly one preprocessing warning. -/
def envVariableParseValueData (artifact_name name : String)
    (m : PreprocessMediator) (value_data : RegistryValueData) :
    Except PreProcessFail PreprocessMediator :=
  match value_data with
  | .nonString =>
      .error ⟨"Unsupported Windows Registry value type for artifact: " ++
        artifact_name⟩
  | .str s =>
      let environment_variable : EnvironmentVariableArtifact := ⟨false, name, s⟩
      match m.knowledge_base.AddEnvironmentVariable environment_variable with
      | .ok kb => .ok { m with knowledge_base := kb }
      | .error _ =>
          .ok (m.ProducePreprocessingWarning artifact_name
            ("Unable to set environment variable: " ++ name ++
              " in knowledge base."))

/-- Embeds WindowsTimeZonePlugin._ParseValueData
(plaso/preprocessors/windows.py lines 547 to 571): a non-string value raises
PreProcessFail; otherwise SetTimeZone is attempted and a ValueError for an
unmappable value is converted into exactly one preprocessing warning. -/
def windowsTimeZoneParseValueData (m : PreprocessMediator)
    (value_data : RegistryValueData) :
    Except PreProcessFail PreprocessMediator :=
  match value_data with
  | .nonString =>
      .error ⟨"Unsupported Windows Registry value type for artifact: " ++
        "WindowsTimezone"⟩
  | .str s =>
      match m.knowledge_base.SetTimeZone s with
      | .ok kb => .ok { m with knowledge_base := kb }
      | .error _ =>
          .ok (m.ProducePreprocessingWarning "WindowsTimezone"
            ("Unable to map: " ++ s ++ " to time zone"))

/-- Windows Registry key as consumed by the user accounts plugin: key name
plus string-valued registry values (only string values are reached by the
embedded code path). -/
structure WinRegistryKey where
  name : String
  values : List (String × String)
deriving DecidableEq, Repr

/-- Lookup of a registry value by name. -/
def WinRegistryKey.GetValueByName (k : WinRegistryKey) (n : String) :
    Option String :=
  (k.values.find? (fun p => p.1 == n)).map (fun p => p.2)

/-- While loop of _GetUsernameFromProfilePath stripping trailing
backslashes from the path (plaso/preprocessors/windows.py lines 591 to
593). -/
def stripTrailingKeySeparators (path : List Char) : List Char :=
  (path.reverse.dropWhile (fun c => c = '\\')).reverse

/-- Embeds WindowsUserAccountsPlugin._GetUsernameFromProfilePath
(plaso/preprocessors/windows.py lines 580 to 597) on the character list of
the path: first the while loop stripping trailing backslashes, then, for a
non-empty remainder, rpartition keeping what follows the last backslash
(rpartition without a match leaves the whole string in its final slot). -/
def getUsernameFromProfilePath (path : List Char) : List Char :=
  let stripped := stripTrailingKeySeparators path
  if stripped = [] then stripped
  else (stripped.reverse.takeWhile (fun c => c ≠ '\\')).reverse

/-- String wrapper for getUsernameFromProfilePath. -/
def getUsernameFromProfilePathString (path : String) : String :=
  ⟨getUsernameFromProfilePath path.data⟩

/-- Python UnboundLocalError: raised when the except handler of the user
accounts plugin (plaso/preprocessors/windows.py lines 624 to 628) formats
the local variable username, which is bound only when the registry key
carries a ProfileImagePath value (lines 614 to 620). -/
inductive UnboundLocalErr where
  | unboundLocalError
deriving DecidableEq, Repr

/-- Embeds WindowsUserAccountsPlugin._ParseKey
(plaso/preprocessors/windows.py lines 599 to 628): builds a user account
from the registry key name and, when a ProfileImagePath value is present,
from that value, which also binds the local username; then the account is
added.  A KeyError from the knowledge base reaches an except handler that
formats username into the warning message: with ProfileImagePath present
this produces exactly one preprocessing warning, but with it absent
username is unbound and the handler itself raises an UnboundLocalError
that propagates to the caller. -/
def windowsUserAccountsParseKey (m : PreprocessMediator)
    (registry_key : WinRegistryKey) :
    Except UnboundLocalErr PreprocessMediator :=
  let base : UserAccountArtifact := ⟨registry_key.name, none, none, "\\"⟩
  let username_opt : Option String :=
    match registry_key.GetValueByName "ProfileImagePath" with
    | some profile_path => some (getUsernameFromProfilePathString profile_path)
    | none => none
  let user_account : UserAccountArtifact :=
    match registry_key.GetValueByName "ProfileImagePath" with
    | some profile_path =>
        let username := getUsernameFromProfilePathString profile_path
        { base with
            user_directory := if profile_path = "" then none else some profile_path,
            username := if username = "" then none else some username }
    | none => base
  match m.knowledge_base.AddUserAccount user_account with
  | .ok kb => .ok { m with knowledge_base := kb }
  | .error _ =>
      match username_opt with
      | some username =>
          .ok (m.ProducePreprocessingWarning "WindowsRegistryProfiles"
            ("Unable to add user account: " ++ username ++ " to knowledge base"))
      | none => .error .unboundLocalError

/-- Python truthiness of an optional string: None and the empty string are
falsy. -/
def optTruthy : Option String → Bool
  | none => false
  | some s => !s.isEmpty

/-- Embeds WindowsAllUsersAppDataKnowledgeBasePlugin.Collect
(plaso/preprocessors/windows.py lines 108 to 142): reads programdata from
the knowledge base; when falsy, reads allusersprofile and, when that is
truthy, joins it with the literal Application Data by a backslash; when the
resulting value is truthy it is added as allusersappdata, a KeyError being
converted into one preprocessing warning. -/
def windowsAllUsersAppDataCollect (m : PreprocessMediator) :
    PreprocessMediator :=
  let a0 : Option String :=
    (m.knowledge_base.GetEnvironmentVariable "programdata").map
      EnvironmentVariableArtifact.value
  let a1 : Option String :=
    if optTruthy a0 then a0
    else
      let d : Option String :=
        (m.knowledge_base.GetEnvironmentVariable "allusersprofile").map
          EnvironmentVariableArtifact.value
      if optTruthy d then some (d.getD "" ++ "\\" ++ "Application Data")
      else a0
  if optTruthy a1 then
    let environment_variable : EnvironmentVariableArtifact :=
      ⟨false, "allusersappdata", a1.getD ""⟩
    match m.knowledge_base.AddEnvironmentVariable environment_variable with
    | .ok kb => { m with knowledge_base := kb }
    | .error _ =>
        m.ProducePreprocessingWarning
          "WindowsAllUsersAppDataKnowledgeBasePlugin"
          "Unable to set environment variable in knowledge base."
  else m

/-! Helper lemmas about the store. -/

/-- List of containers tagged with consecutive sequence numbers starting at
k, as the store lays them out for one container type. -/
def tagged (t : String) (k : Nat) : List AttributeContainer → List StoredContainer
  | [] => []
  | c :: cs => ⟨⟨t, k⟩, c⟩ :: tagged t (k + 1) cs

lemma tagged_length (t : String) (k : Nat) (l : List AttributeContainer) :
    (tagged t k l).length = l.length := by
  induction l generalizing k with
  | nil => rfl
  | cons c cs ih => simp [tagged, ih]

lemma tagged_get? (t : String) (k : Nat) (l : List AttributeContainer) (i : Nat) :
    (tagged t k l).get? i = (l.get? i).map (fun c => ⟨⟨t, k + i⟩, c⟩) := by
  induction l generalizing k i with
  | nil => simp [tagged]
  | cons c cs ih =>
      cases i with
      | zero => simp [tagged]
      | succ j =>
          simp only [tagged, List.get?_cons_succ, ih (k + 1) j]
          have h : k + 1 + j = k + (j + 1) := by omega
          rw [h]

lemma add_state (s : FakeStorageWriter) (c : AttributeContainer) :
    ((s.AddAttributeContainer c).2).state = s.state := by
  cases h : s.state <;>
    simp [FakeStorageWriter.AddAttributeContainer, FakeStorageWriter.rawAdd, h]

lemma add_containers_opened (s : FakeStorageWriter) (c : AttributeContainer)
    (h : s.state = .opened) (t : String) :
    ((s.AddAttributeContainer c).2).containers t =
      if t = c.container_type then
        s.containers t ++
          [⟨⟨c.container_type, (s.containers c.container_type).length + 1⟩, c⟩]
      else s.containers t := by
  simp [FakeStorageWriter.AddAttributeContainer, FakeStorageWriter.rawAdd, h]

lemma addAll_containers (cs : List AttributeContainer) (s : FakeStorageWriter)
    (h : s.state = .opened) (t : String) :
    (addAll s cs).containers t =
      s.containers t ++
        tagged t ((s.containers t).length + 1)
          (cs.filter (fun c => c.container_type == t)) := by
  induction cs generalizing s with
  | nil => simp [addAll, tagged]
  | cons c cs ih =>
      have hstep : addAll s (c :: cs) = addAll ((s.AddAttributeContainer c).2) cs := by
        simp [addAll]
      have hstate : ((s.AddAttributeContainer c).2).state = .opened := by
        rw [add_state]; exact h
      rw [hstep, ih _ hstate, add_containers_opened s c h t]
      by_cases hct : c.container_type = t
      · subst hct
        simp only [if_pos rfl, List.filter_cons, beq_self_eq_true, if_pos]
        simp [tagged, List.length_append]
      · rw [if_neg (fun hh => hct hh.symm)]
        simp [List.filter_cons, hct]

lemma wellFormed_addAll (ty : StorageType) (cs : List AttributeContainer) :
    WellFormed (addAll (freshOpened ty) cs) := by
  intro t i e he
  have h0 : (freshOpened ty).containers t = ([] : List StoredContainer) := rfl
  have hc : (addAll (freshOpened ty) cs).containers t =
      tagged t 1 (cs.filter (fun c => c.container_type == t)) := by
    rw [addAll_containers cs (freshOpened ty) rfl t, h0]
    simp
  rw [hc, tagged_get?] at he
  rcases hmap : (cs.filter (fun c => c.container_type == t)).get? i with _ | c
  · rw [hmap] at he
    exact Option.noConfusion he
  · rw [hmap] at he
    have he' : some (⟨⟨t, 1 + i⟩, c⟩ : StoredContainer) = some e := he
    cases Option.some.inj he'
    simp [Nat.add_comm]

lemma find_seq_none (t : String) (l : List StoredContainer) (k n : Nat)
    (hs : ∀ i, ∀ e : StoredContainer, l.get? i = some e → e.identifier = ⟨t, k + i⟩)
    (hnm : n < k ∨ k + l.length ≤ n) :
    l.find? (fun e => e.identifier.sequence_number == n) = none := by
  apply List.find?_eq_none.mpr
  intro e he
  obtain ⟨i, hi⟩ := List.mem_iff_get?.mp he
  have hid := hs i e hi
  have hlen : i < l.length := (List.get?_eq_some.mp hi).1
  have hseq : e.identifier.sequence_number = k + i := by rw [hid]
  simp only [hseq, beq_iff_eq]
  omega

lemma find_seq_some (t : String) (l : List StoredContainer) (k n : Nat)
    (hs : ∀ i, ∀ e : StoredContainer, l.get? i = some e → e.identifier = ⟨t, k + i⟩)
    (hk : k ≤ n) (hn : n < k + l.length) :
    l.find? (fun e => e.identifier.sequence_number == n) = l.get? (n - k) := by
  induction l generalizing k with
  | nil => simp at hn; omega
  | cons e l ih =>
      have he : e.identifier = ⟨t, k⟩ := by
        have := hs 0 e rfl
        simpa using this
      have hseq : e.identifier.sequence_number = k := by rw [he]
      by_cases hkn : k = n
      · subst hkn
        simp [List.find?_cons, hseq, Nat.sub_self]
      · have hne : (e.identifier.sequence_number == n) = false := by
          simp only [hseq, beq_eq_false_iff_ne, ne_eq]
          omega
        have hs' : ∀ i, ∀ e : StoredContainer, l.get? i = some e →
            e.identifier = ⟨t, k + 1 + i⟩ := by
          intro i e' hi
          have := hs (i + 1) e' (by simpa using hi)
          rw [this]
          have harith : k + (i + 1) = k + 1 + i := by omega
          rw [harith]
        have hlen : (e :: l).length = l.length + 1 := rfl
        rw [hlen] at hn
        have hres := ih (k + 1) hs' (by omega) (by omega)
        rw [List.find?_cons, hne, hres]
        have harith : n - k = (n - (k + 1)) + 1 := by omega
        rw [harith]
        simp

/-! Claim theorems. -/

/-- Claim C1: for every sequence of successful AddAttributeContainer calls
on a freshly opened store, Count T equals the number of adds of type T, and
for every n from 1 to Count T the n-th added container of type T is
retrievable at index n - 1 carrying an identifier whose sequence_number is
exactly n. -/
theorem claim_C1 (ty : StorageType) (cs : List AttributeContainer) (T : String)
    (hT : T ∈ schemaContainerTypes) :
    (addAll (freshOpened ty) cs).count T
        = (cs.filter (fun c => c.container_type == T)).length ∧
    ∀ n : Nat, 1 ≤ n → n ≤ (addAll (freshOpened ty) cs).count T →
      ∃ e : StoredContainer,
        (addAll (freshOpened ty) cs).GetAttributeContainerByIndex T (n - 1)
            = .ok (some e) ∧
        e.identifier = ⟨T, n⟩ ∧
        (cs.filter (fun c => c.container_type == T)).get? (n - 1)
            = some e.container := by
  have h0 : (freshOpened ty).containers T = ([] : List StoredContainer) := rfl
  have hc : (addAll (freshOpened ty) cs).containers T =
      tagged T 1 (cs.filter (fun c => c.container_type == T)) := by
    rw [addAll_containers cs (freshOpened ty) rfl T, h0]
    simp
  have hcount : (addAll (freshOpened ty) cs).count T
      = (cs.filter (fun c => c.container_type == T)).length := by
    show ((addAll (freshOpened ty) cs).containers T).length = _
    rw [hc, tagged_length]
  refine ⟨hcount, ?_⟩
  intro n h1 h2
  rw [hcount] at h2
  have hn1 : n - 1 < (cs.filter (fun c => c.container_type == T)).length := by
    omega
  obtain ⟨c, hget⟩ : ∃ c, (cs.filter (fun c => c.container_type == T)).get? (n - 1)
      = some c := ⟨_, List.get?_eq_get hn1⟩
  refine ⟨⟨⟨T, n⟩, c⟩, ?_, rfl, hget⟩
  have harith : 1 + (n - 1) = n := by omega
  unfold FakeStorageWriter.GetAttributeContainerByIndex
  rw [if_pos hT, hc, tagged_get?, hget, Option.map_some', harith]

/-- Witness for claim C1 at a singleton add of an event data stream. -/
theorem claim_C1_witness :
    ∃ e : StoredContainer,
      (addAll (freshOpened .session)
          [⟨"event_data_stream", 0, 0⟩]).GetAttributeContainerByIndex
            "event_data_stream" (1 - 1) = .ok (some e) ∧
      e.identifier = ⟨"event_data_stream", 1⟩ ∧
      (([⟨"event_data_stream", 0, 0⟩] : List AttributeContainer).filter
          (fun c => c.container_type == "event_data_stream")).get? (1 - 1)
        = some e.container :=
  (claim_C1 .session [⟨"event_data_stream", 0, 0⟩] "event_data_stream"
    (by decide)).2 1 (by decide) (by decide)

/-- Claim C2: Open succeeds exactly from UNOPENED or CLOSED, transitioning
to OPEN, and fails with a state error when already OPEN; Close succeeds
exactly from OPEN, transitioning to CLOSED, and fails with a state error
otherwise; the sequence Open, Close, Open, Close succeeds on a fresh
store. -/
theorem claim_C2 (ty : StorageType) (s : FakeStorageWriter) :
    ((s.state = .unopened ∨ s.state = .closed) →
        s.Open = .ok { s with state := .opened }) ∧
    (s.state = .opened → s.Open = .error .stateError) ∧
    (s.state = .opened → s.Close = .ok { s with state := .closed }) ∧
    ((s.state = .unopened ∨ s.state = .closed) →
        s.Close = .error .stateError) ∧
    ∃ s1 s2 s3 s4 : FakeStorageWriter,
      (FakeStorageWriter.new ty).Open = .ok s1 ∧ s1.Close = .ok s2 ∧
        s2.Open = .ok s3 ∧ s3.Close = .ok s4 := by
  refine ⟨?_, ?_, ?_, ?_, ?_⟩
  · rintro (h | h) <;> simp [FakeStorageWriter.Open, h]
  · intro h
    simp [FakeStorageWriter.Open, h]
  · intro h
    simp [FakeStorageWriter.Close, h]
  · rintro (h | h) <;> simp [FakeStorageWriter.Close, h]
  · exact ⟨_, _, _, _, rfl, rfl, rfl, rfl⟩

/-- Witness for claim C2: opening a fresh session store succeeds. -/
theorem claim_C2_witness :
    (FakeStorageWriter.new .session).Open
      = .ok { FakeStorageWriter.new .session with state := .opened } :=
  (claim_C2 .session (FakeStorageWriter.new .session)).1 (Or.inl rfl)

/-- Claim C3: AddAttributeContainer on a store that is not OPEN fails with a
state error and leaves the store, its contents and its per-type counts
unchanged. -/
theorem claim_C3 (s : FakeStorageWriter) (c : AttributeContainer)
    (h : s.state ≠ .opened) :
    (s.AddAttributeContainer c).1 = .error .stateError ∧
    (s.AddAttributeContainer c).2 = s ∧
    ∀ t : String, ((s.AddAttributeContainer c).2).containers t = s.containers t ∧
      ((s.AddAttributeContainer c).2).count t = s.count t := by
  have hmain : (s.AddAttributeContainer c).1 = .error .stateError ∧
      (s.AddAttributeContainer c).2 = s := by
    cases hs : s.state with
    | opened => exact absurd hs h
    | unopened => simp [FakeStorageWriter.AddAttributeContainer, hs]
    | closed => simp [FakeStorageWriter.AddAttributeContainer, hs]
  exact ⟨hmain.1, hmain.2, fun t => ⟨by rw [hmain.2], by rw [hmain.2]⟩⟩

/-- Witness for claim C3 on a never-opened store. -/
theorem claim_C3_witness :
    ((FakeStorageWriter.new .session).AddAttributeContainer
        ⟨"event_data_stream", 0, 0⟩).1 = .error .stateError :=
  (claim_C3 (FakeStorageWriter.new .session) ⟨"event_data_stream", 0, 0⟩
    (by decide)).1

/-- Claim C4: session-only bookkeeping writes fail with a state error on a
TASK store and task-only bookkeeping writes fail with a state error on a
SESSION store, in every lifecycle state (the storage-type check does not
depend on the open or closed phase). -/
theorem claim_C4 (s : FakeStorageWriter) (c : AttributeContainer) :
    (s.storage_type = .task →
        s.WriteSessionStart c = .error .stateError ∧
        s.WriteSessionCompletion c = .error .stateError) ∧
    (s.storage_type = .session →
        s.WriteTaskStart c = .error .stateError ∧
        s.WriteTaskCompletion c = .error .stateError) := by
  constructor
  · intro h
    constructor
    · simp [FakeStorageWriter.WriteSessionStart, h]
    · simp [FakeStorageWriter.WriteSessionCompletion, h]
  · intro h
    constructor
    · simp [FakeStorageWriter.WriteTaskStart, h]
    · simp [FakeStorageWriter.WriteTaskCompletion, h]

/-- Witness for claim C4: WriteSessionStart on a TASK store fails. -/
theorem claim_C4_witness :
    (FakeStorageWriter.new .task).WriteSessionStart ⟨"session", 0, 0⟩
      = .error .stateError :=
  ((claim_C4 (FakeStorageWriter.new .task) ⟨"session", 0, 0⟩).1 rfl).1

/-- Claim C5: GetSortedEvents yields exactly the stored event containers
(a permutation, so all of them and each once), ordered by ascending
timestamp with ties broken by ascending insertion sequence number. -/
theorem claim_C5 (s : FakeStorageWriter) :
    (s.GetSortedEvents).Perm (s.containers "event") ∧
    (s.GetSortedEvents).Sorted eventLE :=
  ⟨List.perm_insertionSort eventLE _, List.sorted_insertionSort eventLE _⟩

/-- Claim C6: on a well-formed store, GetAttributeContainerByIdentifier
returns an explicit not-found result for a sequence number that was never
issued for the type, and returns the container assigned that sequence
number when it was issued; the lookup does not consult the lifecycle
state. -/
theorem claim_C6 (s : FakeStorageWriter) (T : String)
    (ident : AttributeContainerIdentifier) (hwf : WellFormed s) :
    ((ident.sequence_number = 0 ∨ s.count T < ident.sequence_number) →
        s.GetAttributeContainerByIdentifier T ident = none) ∧
    (1 ≤ ident.sequence_number → ident.sequence_number ≤ s.count T →
        ∃ e : StoredContainer,
          s.GetAttributeContainerByIdentifier T ident = some e ∧
          e.identifier = ⟨T, ident.sequence_number⟩ ∧
          (s.containers T).get? (ident.sequence_number - 1) = some e) := by
  have hs : ∀ i, ∀ e : StoredContainer, (s.containers T).get? i = some e →
      e.identifier = ⟨T, 1 + i⟩ := by
    intro i e he
    rw [hwf T i e he]
    congr 1
    omega
  have hcount : s.count T = (s.containers T).length := rfl
  constructor
  · intro h
    apply find_seq_none T (s.containers T) 1 ident.sequence_number hs
    omega
  · intro h1 h2
    rw [hcount] at h2
    have hfind := find_seq_some T (s.containers T) 1 ident.sequence_number hs
      (by omega) (by omega)
    have hlen : ident.sequence_number - 1 < (s.containers T).length := by omega
    obtain ⟨e, he⟩ : ∃ e, (s.containers T).get? (ident.sequence_number - 1)
        = some e := ⟨_, List.get?_eq_get hlen⟩
    refine ⟨e, ?_, ?_, he⟩
    · show (s.containers T).find?
          (fun x => x.identifier.sequence_number == ident.sequence_number)
        = some e
      rw [hfind]
      exact he
    · have hid := hwf T (ident.sequence_number - 1) e he
      rw [hid]
      congr 1
      omega

/-- Witness for claim C6: looking up the never-issued sequence number 99
returns the absent result. -/
theorem claim_C6_witness :
    (addAll (freshOpened .session)
        [⟨"event_data_stream", 0, 0⟩]).GetAttributeContainerByIdentifier
          "event_data_stream" ⟨"event_data_stream", 99⟩ = none :=
  (claim_C6 (addAll (freshOpened .session) [⟨"event_data_stream", 0, 0⟩])
      "event_data_stream" ⟨"event_data_stream", 99⟩
      (wellFormed_addAll .session [⟨"event_data_stream", 0, 0⟩])).1
    (Or.inr (by decide))

/-- Claim C7: GetAttributeContainerByIndex fails with a usage error for a
container type unknown to the schema, and returns a not-found result, not an
error, for a known type when the index is out of range, including index 0 on
an empty known type. -/
theorem claim_C7 (s : FakeStorageWriter) (T : String) (i : Nat) :
    (T ∉ schemaContainerTypes →
        s.GetAttributeContainerByIndex T i = .error .usageError) ∧
    (T ∈ schemaContainerTypes → s.count T ≤ i →
        s.GetAttributeContainerByIndex T i = .ok none) := by
  constructor
  · intro h
    simp [FakeStorageWriter.GetAttributeContainerByIndex, h]
  · intro h hlen
    unfold FakeStorageWriter.GetAttributeContainerByIndex
    rw [if_pos h, List.get?_eq_none.mpr hlen]

/-- Claim C8 is contradicted by the code at one input: on a registry key
without a ProfileImagePath value whose name already identifies a stored
user account, the user accounts plugin's except handler formats the
unbound local username and the rejection propagates as an
UnboundLocalError instead of becoming a stored warning; with
ProfileImagePath present, the same rejection is converted into exactly one
preprocessing warning as the claim describes. -/
theorem claim_C8 :
    windowsUserAccountsParseKey ⟨⟨[], [], "UTC", ["S-1-5-18"]⟩, []⟩
        ⟨"S-1-5-18", []⟩ = .error .unboundLocalError ∧
    windowsUserAccountsParseKey ⟨⟨[], [], "UTC", ["S-1-5-18"]⟩, []⟩
        ⟨"S-1-5-18", [("ProfileImagePath", "C:\\Users\\nobody")]⟩
      = .ok ⟨⟨[], [], "UTC", ["S-1-5-18"]⟩,
          [⟨"WindowsRegistryProfiles",
            "Unable to add user account: nobody to knowledge base"⟩]⟩ :=
  ⟨rfl, rfl⟩

/-- Claim C9 fails as stated on two inputs the claim quantifies over: with
programdata absent and allusersprofile present with the empty value, the
truthiness check of windows.py line 127 skips the join and Collect writes
nothing, so allusersappdata is not set to the joined value; and with
allusersappdata already present, the add is rejected, a warning is
produced and the old value is kept, again not the joined value the claim
demands. -/
theorem claim_C9_counterexample :
    ((⟨⟨[("allusersprofile", "")], [], "UTC", []⟩, []⟩ :
        PreprocessMediator).knowledge_base.GetEnvironmentVariable
        "programdata" = none) ∧
    ((⟨⟨[("allusersprofile", "")], [], "UTC", []⟩, []⟩ :
        PreprocessMediator).knowledge_base.GetEnvironmentVariable
        "allusersprofile" = some ⟨false, "allusersprofile", ""⟩) ∧
    windowsAllUsersAppDataCollect
        ⟨⟨[("allusersprofile", "")], [], "UTC", []⟩, []⟩
      = ⟨⟨[("allusersprofile", "")], [], "UTC", []⟩, []⟩ ∧
    (windowsAllUsersAppDataCollect
        ⟨⟨[("allusersprofile", "")], [], "UTC", []⟩,
          []⟩).knowledge_base.GetEnvironmentVariable "allusersappdata"
      ≠ some ⟨false, "allusersappdata", "" ++ "\\" ++ "Application Data"⟩ ∧
    ((⟨⟨[("allusersprofile", "C:\\All Users"), ("allusersappdata", "old")],
        [], "UTC", []⟩, []⟩ :
        PreprocessMediator).knowledge_base.GetEnvironmentVariable
        "programdata" = none) ∧
    ((⟨⟨[("allusersprofile", "C:\\All Users"), ("allusersappdata", "old")],
        [], "UTC", []⟩, []⟩ :
        PreprocessMediator).knowledge_base.GetEnvironmentVariable
        "allusersprofile" = some ⟨false, "allusersprofile", "C:\\All Users"⟩) ∧
    (windowsAllUsersAppDataCollect
        ⟨⟨[("allusersprofile", "C:\\All Users"), ("allusersappdata", "old")],
          [], "UTC", []⟩, []⟩).knowledge_base.GetEnvironmentVariable
        "allusersappdata"
      ≠ some ⟨false, "allusersappdata",
          "C:\\All Users" ++ "\\" ++ "Application Data"⟩ := by
  decide

/-- Claim C9, amended: a missing knowledge-base value is an explicit absent
result; with programdata absent, allusersprofile present with a non-empty
value V and allusersappdata not already set, the allusersappdata plugin's
Collect sets allusersappdata to V joined with Application Data by a
backslash, producing no warning, and with programdata and allusersprofile
both absent it writes nothing and raises no error. -/
theorem claim_C9 (m : PreprocessMediator) (V : String) :
    (m.knowledge_base.GetEnvironmentVariable "programdata" = none →
     m.knowledge_base.GetEnvironmentVariable "allusersprofile"
        = some ⟨false, "allusersprofile", V⟩ →
     V ≠ "" →
     m.knowledge_base.GetEnvironmentVariable "allusersappdata" = none →
     ∃ kb' : KnowledgeBase,
       windowsAllUsersAppDataCollect m = ⟨kb', m.warnings⟩ ∧
       kb'.GetEnvironmentVariable "allusersappdata"
          = some ⟨false, "allusersappdata", V ++ "\\" ++ "Application Data"⟩) ∧
    (m.knowledge_base.GetEnvironmentVariable "programdata" = none →
     m.knowledge_base.GetEnvironmentVariable "allusersprofile" = none →
     windowsAllUsersAppDataCollect m = m) := by
  constructor
  · intro h1 h2 hV h4
    have hVe : V.isEmpty = false := by
      cases hb : V.isEmpty
      · rfl
      · exact absurd ((String.isEmpty_iff V).mp hb) hV
    have hVt : optTruthy (some V) = true := by
      simp [optTruthy, hVe]
    have hjoin : (V ++ "\\" ++ "Application Data") ≠ "" := by
      intro hcon
      have hlen := congrArg String.length hcon
      rw [String.length_append, String.length_append] at hlen
      have h16 : ("Application Data" : String).length = 16 := rfl
      have hbs : ("\\" : String).length = 1 := rfl
      have hz : ("" : String).length = 0 := rfl
      rw [h16, hbs, hz] at hlen
      omega
    have hje : (V ++ "\\" ++ "Application Data").isEmpty = false := by
      cases hb : (V ++ "\\" ++ "Application Data").isEmpty
      · rfl
      · exact absurd ((String.isEmpty_iff _).mp hb) hjoin
    have hjt : optTruthy (some (V ++ "\\" ++ "Application Data")) = true := by
      simp [optTruthy, hje]
    have hfind : m.knowledge_base.environment_variables.find?
        (fun p => p.1 == "allusersappdata") = none := by
      unfold KnowledgeBase.GetEnvironmentVariable at h4
      rcases hf : m.knowledge_base.environment_variables.find?
          (fun p => p.1 == "allusersappdata") with _ | p
      · exact hf
      · rw [hf] at h4
        exact absurd h4 (by simp)
    have hadd : m.knowledge_base.AddEnvironmentVariable
        ⟨false, "allusersappdata", V ++ "\\" ++ "Application Data"⟩
        = .ok { m.knowledge_base with environment_variables :=
            m.knowledge_base.environment_variables ++
              [("allusersappdata", V ++ "\\" ++ "Application Data")] } := by
      unfold KnowledgeBase.AddEnvironmentVariable
      rw [hfind]
      rfl
    refine ⟨{ m.knowledge_base with environment_variables :=
        m.knowledge_base.environment_variables ++
          [("allusersappdata", V ++ "\\" ++ "Application Data")] }, ?_, ?_⟩
    · simp only [windowsAllUsersAppDataCollect, h1, h2, Option.map_none',
        Option.map_some', Option.getD_some]
      rw [show optTruthy (none : Option String) = false from rfl, hVt]
      simp only [Bool.false_eq_true, if_false, if_true]
      rw [hjt]
      simp only [if_true, Option.getD_some, hadd]
    · unfold KnowledgeBase.GetEnvironmentVariable
      rw [List.find?_append, hfind]
      simp
  · intro h1 h2
    simp [windowsAllUsersAppDataCollect, h1, h2, optTruthy]

/-- Witness for claim C9 on a knowledge base holding only allusersprofile. -/
theorem claim_C9_witness :
    ∃ kb' : KnowledgeBase,
      windowsAllUsersAppDataCollect
          ⟨⟨[("allusersprofile", "C:\\All Users")], [], "UTC", []⟩, []⟩
        = ⟨kb', []⟩ ∧
      kb'.GetEnvironmentVariable "allusersappdata"
        = some ⟨false, "allusersappdata",
            "C:\\All Users" ++ "\\" ++ "Application Data"⟩ :=
  (claim_C9 ⟨⟨[("allusersprofile", "C:\\All Users")], [], "UTC", []⟩, []⟩
      "C:\\All Users").1 (by decide) (by decide) (by decide) (by decide)

/-- Witness for claim C7: unknown type fails with a usage error while index
0 on a known, empty type returns the not-found result. -/
theorem claim_C7_witness :
    (FakeStorageWriter.new .session).GetAttributeContainerByIndex "bogus" 0
        = .error .usageError ∧
    (FakeStorageWriter.new .session).GetAttributeContainerByIndex
        "event_data_stream" 0 = .ok none :=
  ⟨(claim_C7 (FakeStorageWriter.new .session) "bogus" 0).1 (by decide),
   (claim_C7 (FakeStorageWriter.new .session) "event_data_stream" 0).2
     (by decide) (by decide)⟩

lemma dropWhile_eq_self_of_false {α : Type} (p : α → Bool) (l : List α)
    (h : ∀ a ∈ l, p a = false) : l.dropWhile p = l := by
  cases l with
  | nil => rfl
  | cons a t =>
      have ha := h a (List.mem_cons_self a t)
      simp [List.dropWhile_cons, ha]

lemma takeWhile_eq_self_of_true {α : Type} (p : α → Bool) (l : List α)
    (h : ∀ a ∈ l, p a = true) : l.takeWhile p = l := by
  induction l with
  | nil => rfl
  | cons a t ih =>
      have ha := h a (List.mem_cons_self a t)
      have ht := ih (fun x hx => h x (List.mem_cons_of_mem a hx))
      simp [List.takeWhile_cons, ha, ht]

lemma dropWhile_head_false {α : Type} (p : α → Bool) (l : List α) :
    l.dropWhile p = [] ∨ ∃ a t, l.dropWhile p = a :: t ∧ p a = false := by
  induction l with
  | nil => exact Or.inl rfl
  | cons a t ih =>
      by_cases ha : p a
      · simpa [List.dropWhile_cons, ha] using ih
      · exact Or.inr ⟨a, t, by simp [List.dropWhile_cons, ha], by simpa using ha⟩

/-- Claim C10: _GetUsernameFromProfilePath terminates and returns the last
path segment of the path after discarding all trailing backslashes: the
result is a backslash-free suffix of the stripped path preceded by nothing
or by a segment ending in a backslash; an empty or all-backslash path gives
the empty string and a backslash-free path is returned whole. -/
theorem claim_C10 (path : List Char) :
    (∃ pre : List Char,
        stripTrailingKeySeparators path
            = pre ++ getUsernameFromProfilePath path ∧
        '\\' ∉ getUsernameFromProfilePath path ∧
        (pre = [] ∨ pre.getLast? = some '\\')) ∧
    ((∀ c ∈ path, c = '\\') → getUsernameFromProfilePath path = []) ∧
    ('\\' ∉ path → getUsernameFromProfilePath path = path) := by
  refine ⟨?_, ?_, ?_⟩
  · by_cases hq : stripTrailingKeySeparators path = []
    · exact ⟨[], by simp [getUsernameFromProfilePath, hq],
        by simp [getUsernameFromProfilePath, hq], Or.inl rfl⟩
    · have hu : getUsernameFromProfilePath path
          = ((stripTrailingKeySeparators path).reverse.takeWhile
              (fun c => c ≠ '\\')).reverse := by
        simp [getUsernameFromProfilePath, hq]
      refine ⟨((stripTrailingKeySeparators path).reverse.dropWhile
          (fun c => c ≠ '\\')).reverse, ?_, ?_, ?_⟩
      · rw [hu, ← List.reverse_append,
          List.takeWhile_append_dropWhile, List.reverse_reverse]
      · rw [hu]
        intro hmem
        rw [List.mem_reverse] at hmem
        have := List.mem_takeWhile_imp hmem
        simp at this
      · rcases dropWhile_head_false (fun c => (c ≠ '\\' : Bool))
            (stripTrailingKeySeparators path).reverse with hdp | ⟨a, tl, hdp, hpa⟩
        · left
          rw [hdp]
          rfl
        · right
          rw [hdp, List.getLast?_reverse]
          have ha : a = '\\' := by simpa using hpa
          simp [ha]
  · intro h
    have hq : stripTrailingKeySeparators path = [] := by
      unfold stripTrailingKeySeparators
      have hd : path.reverse.dropWhile (fun c => (c = '\\' : Bool)) = [] := by
        apply List.dropWhile_eq_nil_iff.mpr
        intro x hx
        have := h x (List.mem_reverse.mp hx)
        simp [this]
      rw [hd]
      rfl
    simp [getUsernameFromProfilePath, hq]
  · intro h
    have hstr : stripTrailingKeySeparators path = path := by
      unfold stripTrailingKeySeparators
      have hall : ∀ a ∈ path.reverse, (fun c => (c = '\\' : Bool)) a = false := by
        intro a ha
        have hmem : a ∈ path := List.mem_reverse.mp ha
        simp only [decide_eq_false_iff_not]
        intro heq
        exact h (heq ▸ hmem)
      rw [dropWhile_eq_self_of_false _ _ hall, List.reverse_reverse]
    by_cases hp : path = []
    · subst hp
      rfl
    · have htw : path.reverse.takeWhile (fun c => (c ≠ '\\' : Bool))
          = path.reverse := by
        apply takeWhile_eq_self_of_true
        intro a ha
        have hmem : a ∈ path := List.mem_reverse.mp ha
        simp only [ne_eq, decide_not, Bool.not_eq_true', decide_eq_false_iff_not]
        intro heq
        exact h (heq ▸ hmem)
      have hstrne : stripTrailingKeySeparators path ≠ [] := by
        rw [hstr]
        exact hp
      have hdef : getUsernameFromProfilePath path
          = ((stripTrailingKeySeparators path).reverse.takeWhile
              (fun c => (c ≠ '\\' : Bool))).reverse := by
        simp [getUsernameFromProfilePath, hstrne]
      rw [hdef, hstr, htw, List.reverse_reverse]

/-- Witness for claim C10: a path without backslashes is returned whole. -/
theorem claim_C10_witness :
    getUsernameFromProfilePath ['n', 'o', 'b', 'o', 'd', 'y']
      = ['n', 'o', 'b', 'o', 'd', 'y'] :=
  (claim_C10 ['n', 'o', 'b', 'o', 'd', 'y']).2.2 (by decide)

end Plaso
